import Mathlib

/-!
Verification of the backend request-handling core of the AI Flow Visualizer
repository (a MERN-stack app): input sanitization and validation
(`backend/utils/validation.js`), the fixed-window rate limiter
(`createRateLimiter` in `backend/utils/validation.js` / `rateLimiter` in
`backend/middleware/errorHandler.js`), the save-handler error classification
(`backend/routes/ai.js`, POST /api/save catch block), and the OpenRouter
completion client's local guards and error re-classification
(`services/openRouterClient.js`).

JavaScript strings are modelled as `List Char`; JavaScript dynamic values
(null / undefined / string / number / boolean / object) as the inductive
`JSValue`, with JS truthiness made explicit.  Millisecond timestamps are
modelled as `Int`, matching JS number arithmetic on `Date.now()` values
(no truncation at zero).
-/

namespace AIFlow

/-- Whitespace for JavaScript's `String.prototype.trim`: the ECMAScript
WhiteSpace and LineTerminator code points (TAB, LF, VT, FF, CR, SP, NBSP,
BOM, and the Unicode space separators). -/
def isJsWhitespace (c : Char) : Bool :=
  c.toNat = 0x09 || c.toNat = 0x0A || c.toNat = 0x0B || c.toNat = 0x0C ||
  c.toNat = 0x0D || c.toNat = 0x20 || c.toNat = 0xA0 || c.toNat = 0xFEFF ||
  c.toNat = 0x1680 || (0x2000 ≤ c.toNat && c.toNat ≤ 0x200A) ||
  c.toNat = 0x2028 || c.toNat = 0x2029 || c.toNat = 0x202F ||
  c.toNat = 0x205F || c.toNat = 0x3000

/-- The character class removed by `sanitizeString`'s regex
`[\x00-\x08\x0B\x0C\x0E-\x1F\x7F]` (validation.js line 14). -/
def isControlChar (c : Char) : Bool :=
  c.toNat ≤ 0x08 || c.toNat = 0x0B || c.toNat = 0x0C ||
  (0x0E ≤ c.toNat && c.toNat ≤ 0x1F) || c.toNat = 0x7F

/-- Remove leading JS whitespace. -/
def trimLeft (l : List Char) : List Char :=
  l.dropWhile isJsWhitespace

/-- Remove trailing JS whitespace. -/
def trimRight (l : List Char) : List Char :=
  (l.reverse.dropWhile isJsWhitespace).reverse

/-- JavaScript `String.prototype.trim`: strip whitespace from both ends. -/
def jsTrim (l : List Char) : List Char :=
  trimRight (trimLeft l)

/-- The `.replace(/[\x00-\x08\x0B\x0C\x0E-\x1F\x7F]/g, "")` step of
`sanitizeString`. -/
def stripControl (l : List Char) : List Char :=
  l.filter (fun c => !isControlChar c)

/-- The string-to-string core of `sanitizeString` (validation.js lines
13-15): strip the control-character class, then trim. -/
def sanitizeChars (l : List Char) : List Char :=
  jsTrim (stripControl l)

/-- A JavaScript dynamic value, as far as the validators inspect one.
Numbers are modelled as integers (NaN plays no role in the claims). -/
inductive JSValue where
  | vNull
  | vUndef
  | vStr (s : List Char)
  | vNum (n : Int)
  | vBool (b : Bool)
  | vObj
deriving DecidableEq, Repr

/-- JavaScript truthiness of a `JSValue` (`!x` in the source is
`!truthy x` here). -/
def truthy : JSValue → Bool
  | .vNull => false
  | .vUndef => false
  | .vStr s => !s.isEmpty
  | .vNum n => decide (n ≠ 0)
  | .vBool b => b
  | .vObj => true

/-- `typeof x === "string"`. -/
def isStringVal : JSValue → Bool
  | .vStr _ => true
  | _ => false

/-- The character list of a string value ('[]' for non-strings). -/
def strChars : JSValue → List Char
  | .vStr s => s
  | _ => []

/-- `sanitizeString` (validation.js lines 8-16): non-strings map to `""`,
strings get control characters stripped and are trimmed. -/
def sanitizeString (v : JSValue) : List Char :=
  match v with
  | .vStr s => sanitizeChars s
  | _ => []

/-- Result shape of `validatePrompt`: `sanitized` is present only on
success, mirroring the JS object that carries `sanitized` only in the
success return. -/
structure ValidationResult where
  isValid : Bool
  errors : List String
  sanitized : Option (List Char)
deriving DecidableEq, Repr

/-- `validatePrompt` (validation.js lines 21-52). -/
def validatePrompt (prompt : JSValue) : ValidationResult :=
  if !truthy prompt then
    ⟨false, ["Prompt is required"], none⟩
  else if !isStringVal prompt then
    ⟨false, ["Prompt must be a string"], none⟩
  else
    let sanitized := sanitizeString prompt
    if sanitized.length = 0 then
      ⟨false, ["Prompt cannot be empty"], none⟩
    else if sanitized.length < 3 then
      ⟨false, ["Prompt must be at least 3 characters long"], none⟩
    else if sanitized.length > 10000 then
      ⟨false, ["Prompt is too long (maximum 10,000 characters)"], none⟩
    else
      ⟨true, [], some sanitized⟩

/-- Result shape of `validateSaveData`. -/
structure SaveValidationResult where
  isValid : Bool
  errors : List String
  sanitizedPrompt : List Char
  sanitizedResponse : List Char
deriving DecidableEq, Repr

/-- The response-side checks of `validateSaveData` (validation.js lines
66-76), in source order: falsy, non-string, sanitized-empty. -/
def responseErrors (response : JSValue) : List String :=
  if !truthy response then ["Response is required"]
  else if !isStringVal response then ["Response must be a string"]
  else if (sanitizeString response).length = 0 then ["Response cannot be empty"]
  else []

/-- `validateSaveData` (validation.js lines 57-84): accumulates the prompt
errors (when the prompt is invalid) followed by the response errors. -/
def validateSaveData (prompt response : JSValue) : SaveValidationResult :=
  let promptValidation := validatePrompt prompt
  let errors :=
    (if promptValidation.isValid then [] else promptValidation.errors) ++
      responseErrors response
  { isValid := errors.isEmpty
    errors := errors
    sanitizedPrompt := promptValidation.sanitized.getD []
    sanitizedResponse :=
      if truthy response then sanitizeString response else [] }

/-! ## Rate limiter (`createRateLimiter`, validation.js lines 109-145;
the middleware `rateLimiter` in errorHandler.js lines 48-103 runs the same
algorithm with the same constants). -/

/-- `WINDOW_SIZE = 60 * 1000` milliseconds. -/
def WINDOW_SIZE : Int := 60 * 1000

/-- `MAX_REQUESTS = 30` requests per window. -/
def MAX_REQUESTS : Nat := 30

/-- `Math.ceil(x / 1000)` on an integer `x`: ceiling division by 1000. -/
def ceilDiv1000 (x : Int) : Int :=
  -((-x).fdiv 1000)

/-- Outcome of one limiter call: `{allowed: true}` or
`{allowed: false, resetTime}`. -/
structure RLResult where
  allowed : Bool
  resetTime : Option Int
deriving DecidableEq, Repr

/-- The limiter's `requests` map, as a total function from client identity
to its stored timestamp list (missing keys read as `[]`, matching the
`if (!requests.has(ip)) requests.set(ip, [])` initialisation). -/
def RLState : Type := String → List Int

/-- The empty `requests` map. -/
def initState : RLState := fun _ => []

/-- One call of the closure returned by `createRateLimiter`, at clock value
`now`: filter the identity's timestamps to those `> now - WINDOW_SIZE`,
reject with `resetTime = Math.ceil((recent[0] + WINDOW_SIZE - now)/1000)`
when the filtered count reaches `MAX_REQUESTS`, else append `now`. -/
def rateLimitStep (requests : RLState) (ip : String) (now : Int) :
    RLState × RLResult :=
  let windowStart := now - WINDOW_SIZE
  let ipRequests := requests ip
  let recentRequests := ipRequests.filter (fun timestamp => decide (windowStart < timestamp))
  if MAX_REQUESTS ≤ recentRequests.length then
    (fun i => if i = ip then recentRequests else requests i,
     ⟨false, some (ceilDiv1000 (recentRequests.headD 0 + WINDOW_SIZE - now))⟩)
  else
    (fun i => if i = ip then recentRequests ++ [now] else requests i,
     ⟨true, none⟩)

/-- Run a sequence of limiter calls, returning the final `requests` map. -/
def runState (s : RLState) : List (String × Int) → RLState
  | [] => s
  | e :: rest => runState (rateLimitStep s e.1 e.2).1 rest

/-- Run a sequence of limiter calls, returning the per-call results. -/
def runResultsList (s : RLState) : List (String × Int) → List RLResult
  | [] => []
  | e :: rest =>
      (rateLimitStep s e.1 e.2).2 ::
        runResultsList (rateLimitStep s e.1 e.2).1 rest

/-- The time of the most recent call of a given identity in a trace. -/
def lastCall (ip : String) : List (String × Int) → Option Int
  | [] => none
  | e :: rest =>
      match lastCall ip rest with
      | some t => some t
      | none => if e.1 = ip then some e.2 else none

/-- A trace whose clock never goes backwards. -/
def MonoTrace (trace : List (String × Int)) : Prop :=
  trace.Pairwise (fun a b => a.2 ≤ b.2)

/-! ## Save-handler error classification (`POST /api/save` catch block,
backend/routes/ai.js lines 215-279). -/

/-- `pat` appears as a contiguous run of `l` (JS `String.includes`). -/
def listIncludes (l pat : List Char) : Bool :=
  match l with
  | [] => pat.isEmpty
  | _ :: rest => pat.isPrefixOf l || listIncludes rest pat

/-- JavaScript `message.includes(pat)`. -/
def strIncludes (s pat : String) : Bool :=
  listIncludes s.toList pat.toList

/-- A thrown JS error, as far as the handlers inspect one: its `name`,
`message`, and numeric `code` property (absent on plain errors). -/
structure JSError where
  name : String
  message : String
  code : Option Int
deriving DecidableEq, Repr

/-- The database-connection-error test of the save handler (ai.js lines
241-250): the eight-way disjunction over the error's message and name. -/
def isConnectionTypeError (e : JSError) : Bool :=
  strIncludes e.message "buffering timed out" ||
  strIncludes e.message "connection" ||
  strIncludes e.message "ECONNREFUSED" ||
  strIncludes e.message "Database save timeout" ||
  e.name = "MongooseError" ||
  strIncludes e.message "MongooseError" ||
  strIncludes e.message "MongoNetworkError" ||
  strIncludes e.message "topology"

/-- The catch block of the `POST /api/save` handler (ai.js lines 215-279),
mapping a thrown error to (HTTP status, machine-readable code), in source
order: Mongoose `ValidationError`, then connection/timeout conditions,
then duplicate key (`code === 11000`), then the generic fallback. -/
def classifySaveError (e : JSError) : Nat × String :=
  if e.name = "ValidationError" then
    (400, "VALIDATION_ERROR")
  else if isConnectionTypeError e then
    (503, "DATABASE_UNAVAILABLE")
  else if e.code = some 11000 then
    (409, "DUPLICATE_ENTRY")
  else
    (500, "DATABASE_ERROR")

/-! ## OpenRouter completion client (`services/openRouterClient.js`). -/

/-- `this.freeModels` (openRouterClient.js line 14). -/
def freeModels : List String := ["mistralai/mistral-7b-instruct:free"]

/-- `this.defaultModel = this.freeModels[0]`. -/
def defaultModel : String := "mistralai/mistral-7b-instruct:free"

/-- One entry of the `messages` array sent upstream. -/
structure ChatMessage where
  role : String
  content : List Char
deriving DecidableEq, Repr

/-- The request payload `{model, messages}` built by `chatCompletion`. -/
structure ChatRequest where
  model : String
  messages : List ChatMessage
deriving DecidableEq, Repr

/-- `model || this.defaultModel` (openRouterClient.js line 51): a `null`
or empty-string (falsy) argument selects the default model. -/
def selectedModel (model : Option String) : String :=
  match model with
  | some m => if m.isEmpty then defaultModel else m
  | none => defaultModel

/-- The local guard section of `chatCompletion` (openRouterClient.js lines
46-69): reject a falsy / non-string / whitespace-only prompt, then reject
a selected model outside `freeModels`; otherwise build the outbound
request payload.  `Except.error` means the function throws before any
network request is issued; `Except.ok` carries the payload that reaches
`_makeRequest`. -/
def chatCompletionRequest (prompt : JSValue) (model : Option String) :
    Except String ChatRequest :=
  if !truthy prompt || !isStringVal prompt ||
      (jsTrim (strChars prompt)).length = 0 then
    .error "Prompt is required and must be a non-empty string"
  else
    let m := selectedModel model
    if !freeModels.contains m then
      .error ("Model " ++ m ++ " is not available. Available models: " ++
        String.intercalate ", " freeModels)
    else
      .ok ⟨m, [⟨"user", jsTrim (strChars prompt)⟩]⟩

/-- The error message produced by `_makeRequest` for a non-2xx response
(openRouterClient.js lines 148-151): the parsed body's `error.message`
when present, else `"HTTP <status>: <body>"`. -/
def makeRequestErrorMessage (statusCode : Nat)
    (bodyErrorMessage : Option String) (responseData : String) : String :=
  match bodyErrorMessage with
  | some m => m
  | none => "HTTP " ++ toString statusCode ++ ": " ++ responseData

/-- The catch-block re-classification of `chatCompletion`
(openRouterClient.js lines 88-106): substring tests on the failure
message, falling through to re-throwing the original error. -/
def reclassifyCompletionError (msg : String) : String :=
  if strIncludes msg "401" then "Invalid OpenRouter API key"
  else if strIncludes msg "429" then "Rate limit exceeded. Please try again later"
  else if strIncludes msg "500" then "OpenRouter API service unavailable"
  else if strIncludes msg "ENOTFOUND" || strIncludes msg "ECONNREFUSED" then
    "Unable to connect to OpenRouter API"
  else msg

/-! ## Lemmas on trimming and sanitization -/

lemma dropWhile_idem (p : Char → Bool) (l : List Char) :
    (l.dropWhile p).dropWhile p = l.dropWhile p := by
  induction l with
  | nil => rfl
  | cons a l ih =>
      by_cases h : p a
      · simp [List.dropWhile_cons, h, ih]
      · simp [List.dropWhile_cons, h]

lemma trimLeft_trimLeft (l : List Char) : trimLeft (trimLeft l) = trimLeft l :=
  dropWhile_idem isJsWhitespace l

lemma trimRight_trimRight (l : List Char) :
    trimRight (trimRight l) = trimRight l := by
  unfold trimRight
  rw [List.reverse_reverse, dropWhile_idem]

lemma dropWhile_append_singleton (p : Char → Bool) (a : Char) :
    ∀ xs : List Char, (xs ++ [a]).dropWhile p = [] ∨
      ∃ ys, (xs ++ [a]).dropWhile p = ys ++ [a] := by
  intro xs
  induction xs with
  | nil =>
      by_cases h : p a
      · left; simp [List.dropWhile_cons, h]
      · right; exact ⟨[], by simp [List.dropWhile_cons, h]⟩
  | cons x xs ih =>
      by_cases h : p x
      · simpa [List.dropWhile_cons, h] using ih
      · right; exact ⟨x :: xs, by simp [List.dropWhile_cons, h]⟩

lemma trimRight_cons_shape (a : Char) (l : List Char) :
    trimRight (a :: l) = [] ∨ ∃ r, trimRight (a :: l) = a :: r := by
  unfold trimRight
  rcases dropWhile_append_singleton isJsWhitespace a l.reverse with h | ⟨ys, h⟩
  · left; simp [List.reverse_cons, h]
  · right; exact ⟨ys.reverse, by simp [List.reverse_cons, h]⟩

lemma head_not_ws_of_trimLeft_fixed (a : Char) (l : List Char)
    (h : trimLeft (a :: l) = a :: l) : isJsWhitespace a = false := by
  by_contra hcon
  have ha : isJsWhitespace a = true := by
    cases hw : isJsWhitespace a
    · exact absurd hw hcon
    · rfl
  unfold trimLeft at h
  rw [List.dropWhile_cons, if_pos ha] at h
  have hle : (l.dropWhile isJsWhitespace).length ≤ l.length :=
    (List.dropWhile_sublist _).length_le
  rw [h] at hle
  simp at hle

lemma trimLeft_trimRight_of_fixed (u : List Char) (h : trimLeft u = u) :
    trimLeft (trimRight u) = trimRight u := by
  cases u with
  | nil => rfl
  | cons a v =>
      have ha : isJsWhitespace a = false := head_not_ws_of_trimLeft_fixed a v h
      rcases trimRight_cons_shape a v with hsh | ⟨r, hsh⟩
      · rw [hsh]; rfl
      · rw [hsh]
        unfold trimLeft
        rw [List.dropWhile_cons, if_neg (by simp [ha])]

lemma jsTrim_idem (l : List Char) : jsTrim (jsTrim l) = jsTrim l := by
  unfold jsTrim
  rw [trimLeft_trimRight_of_fixed (trimLeft l) (trimLeft_trimLeft l),
    trimRight_trimRight]

lemma mem_trimLeft {x : Char} {l : List Char} (h : x ∈ trimLeft l) : x ∈ l :=
  (List.dropWhile_sublist _).subset h

lemma mem_trimRight {x : Char} {l : List Char} (h : x ∈ trimRight l) : x ∈ l := by
  unfold trimRight at h
  rw [List.mem_reverse] at h
  have := (List.dropWhile_sublist _).subset h
  rwa [List.mem_reverse] at this

lemma mem_jsTrim {x : Char} {l : List Char} (h : x ∈ jsTrim l) : x ∈ l :=
  mem_trimLeft (mem_trimRight h)

lemma stripControl_eq_self {l : List Char}
    (h : ∀ c ∈ l, isControlChar c = false) : stripControl l = l :=
  List.filter_eq_self.mpr (fun c hc => by simp [h c hc])

lemma mem_stripControl {c : Char} {l : List Char} (h : c ∈ stripControl l) :
    isControlChar c = false := by
  unfold stripControl at h
  rcases List.mem_filter.mp h with ⟨-, h2⟩
  simpa using h2

lemma sanitizeChars_idem (s : List Char) :
    sanitizeChars (sanitizeChars s) = sanitizeChars s := by
  unfold sanitizeChars
  rw [stripControl_eq_self
    (fun c hc => mem_stripControl (mem_jsTrim hc)), jsTrim_idem]

/-- C8: Sanitization is idempotent: for every value `s` (in particular
every string), `sanitizeString(sanitizeString(s)) = sanitizeString(s)` —
re-sanitizing the (string) output of `sanitizeString` changes nothing. -/
theorem sanitizeString_idempotent (v : AIFlow.JSValue) :
    AIFlow.sanitizeString (.vStr (AIFlow.sanitizeString v)) =
      AIFlow.sanitizeString v := by
  cases v <;> simp [AIFlow.sanitizeString] <;>
    first
      | rfl
      | exact sanitizeChars_idem _

lemma dropWhile_replicate_not (p : Char → Bool) (c : Char) (h : p c = false) :
    ∀ n, (List.replicate n c).dropWhile p = List.replicate n c := by
  intro n
  cases n with
  | zero => rfl
  | succ n => rw [List.replicate_succ, List.dropWhile_cons, if_neg (by simp [h])]

lemma dropWhile_replicate_append (p : Char → Bool) (c : Char) (h : p c = true)
    (l : List Char) :
    ∀ n, ((List.replicate n c) ++ l).dropWhile p = l.dropWhile p := by
  intro n
  induction n with
  | zero => rfl
  | succ n ih =>
      rw [List.replicate_succ, List.cons_append, List.dropWhile_cons, if_pos h, ih]

lemma sanitizeChars_replicate_a (n : Nat) :
    sanitizeChars (List.replicate n 'a') = List.replicate n 'a' := by
  have hstrip : stripControl (List.replicate n 'a') = List.replicate n 'a' :=
    stripControl_eq_self (by
      intro c hc
      rcases (List.mem_replicate.mp hc) with ⟨-, rfl⟩
      decide)
  unfold sanitizeChars jsTrim trimLeft trimRight
  rw [hstrip, dropWhile_replicate_not _ _ (by decide), List.reverse_replicate,
    dropWhile_replicate_not _ _ (by decide), List.reverse_replicate]

lemma sanitizeChars_abc_spaces (n : Nat) :
    sanitizeChars ('a' :: 'b' :: 'c' :: List.replicate n ' ') = ['a', 'b', 'c'] := by
  have hstrip : stripControl ('a' :: 'b' :: 'c' :: List.replicate n ' ') =
      'a' :: 'b' :: 'c' :: List.replicate n ' ' :=
    stripControl_eq_self (by
      intro c hc
      simp only [List.mem_cons, List.mem_replicate] at hc
      rcases hc with rfl | rfl | rfl | ⟨-, rfl⟩ <;> decide)
  have hrev : ('a' :: 'b' :: 'c' :: List.replicate n ' ').reverse =
      List.replicate n ' ' ++ ['c', 'b', 'a'] := by
    simp [List.reverse_replicate]
  unfold sanitizeChars jsTrim trimLeft trimRight
  rw [hstrip, List.dropWhile_cons, if_neg (by decide), hrev,
    dropWhile_replicate_append _ _ (by decide), List.dropWhile_cons,
    if_neg (by decide)]
  rfl

lemma validatePrompt_eval_of_sanitized {s t : List Char} (hne : s ≠ [])
    (hs : sanitizeChars s = t) (h3 : 3 ≤ t.length) (h10k : t.length ≤ 10000) :
    validatePrompt (.vStr s) = ⟨true, [], some t⟩ := by
  have htr : truthy (.vStr s) = true := by simp [truthy, hne]
  have h0 : ¬(t.length = 0) := by omega
  have hlt : ¬(t.length < 3) := by omega
  have hgt : ¬(t.length > 10000) := by omega
  simp [validatePrompt, htr, isStringVal, sanitizeString, hs, h0, hlt, hgt]

/-- C4: for every string `p` containing no character of the sanitizer's
control class whose trimmed length is between 3 and 10000, `validatePrompt`
returns `isValid = true`, no errors, and `sanitized = trim(p)`. -/
theorem validatePrompt_accepts_good_prompts (s : List Char)
    (hctl : ∀ c ∈ s, AIFlow.isControlChar c = false)
    (h3 : 3 ≤ (AIFlow.jsTrim s).length)
    (h10k : (AIFlow.jsTrim s).length ≤ 10000) :
    AIFlow.validatePrompt (.vStr s) = ⟨true, [], some (AIFlow.jsTrim s)⟩ := by
  have hne : s ≠ [] := by
    intro h
    subst h
    simp [jsTrim, trimLeft, trimRight] at h3
  exact validatePrompt_eval_of_sanitized hne
    (by simp [sanitizeChars, stripControl_eq_self hctl]) h3 h10k

/-- Witness for C4 at the concrete prompt `"abc"`. -/
theorem validatePrompt_accepts_good_prompts_witness :
    (∀ c ∈ ['a', 'b', 'c'], AIFlow.isControlChar c = false) ∧
    3 ≤ (AIFlow.jsTrim ['a', 'b', 'c']).length ∧
    (AIFlow.jsTrim ['a', 'b', 'c']).length ≤ 10000 ∧
    AIFlow.validatePrompt (.vStr ['a', 'b', 'c']) =
      ⟨true, [], some (AIFlow.jsTrim ['a', 'b', 'c'])⟩ :=
  ⟨by decide, by decide, by decide,
    validatePrompt_accepts_good_prompts ['a', 'b', 'c']
      (by decide) (by decide) (by decide)⟩

/-- C5, counterexample: the claim "every input longer than 10000 characters
is rejected" is false — `validatePrompt` bounds the *sanitized* length, so
`"abc"` followed by 9998 spaces (raw length 10001) is accepted. -/
theorem rawLength_counterexample :
    ('a' :: 'b' :: 'c' :: List.replicate 9998 ' ').length > 10000 ∧
    (AIFlow.validatePrompt
      (.vStr ('a' :: 'b' :: 'c' :: List.replicate 9998 ' '))).isValid = true := by
  constructor
  · have hl : ('a' :: 'b' :: 'c' :: List.replicate 9998 ' ').length = 10001 := by
      simp only [List.length_cons, List.length_replicate]
    rw [hl]
    decide
  · have hv : validatePrompt (.vStr ('a' :: 'b' :: 'c' :: List.replicate 9998 ' ')) =
        ⟨true, [], some ['a', 'b', 'c']⟩ :=
      validatePrompt_eval_of_sanitized (List.cons_ne_nil _ _)
        (sanitizeChars_abc_spaces 9998) (by decide) (by decide)
    rw [hv]

/-- C5, amended: for every string whose *sanitized* form (control
characters stripped, then trimmed) exceeds 10000 characters,
`validatePrompt` returns `isValid = false`. -/
theorem validatePrompt_rejects_long_sanitized (s : List Char)
    (h : (AIFlow.sanitizeChars s).length > 10000) :
    (AIFlow.validatePrompt (.vStr s)).isValid = false := by
  have hne : s ≠ [] := by
    intro hs
    subst hs
    simp [sanitizeChars, stripControl, jsTrim, trimLeft, trimRight] at h
  have htr : truthy (.vStr s) = true := by simp [truthy, hne]
  have h0 : ¬((sanitizeChars s).length = 0) := by omega
  have hlt : ¬((sanitizeChars s).length < 3) := by omega
  simp [validatePrompt, htr, isStringVal, sanitizeString, h0, hlt, h]

/-- Witness for amended C5 at 10001 repetitions of `'a'`. -/
theorem validatePrompt_rejects_long_sanitized_witness :
    (AIFlow.sanitizeChars (List.replicate 10001 'a')).length > 10000 ∧
    (AIFlow.validatePrompt (.vStr (List.replicate 10001 'a'))).isValid = false :=
  have h : (AIFlow.sanitizeChars (List.replicate 10001 'a')).length > 10000 := by
    rw [sanitizeChars_replicate_a, List.length_replicate]
    decide
  ⟨h, validatePrompt_rejects_long_sanitized _ h⟩

/-- C6, counterexample: the empty string is a string whose sanitized form
has length 0, yet `validatePrompt` reports "Prompt is required" (the
falsiness check fires first), not "Prompt cannot be empty". -/
theorem emptyString_error_counterexample :
    AIFlow.isStringVal (.vStr []) = true ∧
    (AIFlow.sanitizeString (.vStr [])).length = 0 ∧
    (AIFlow.validatePrompt (.vStr [])).errors = ["Prompt is required"] ∧
    ("Prompt is required" : String) ≠ "Prompt cannot be empty" :=
  ⟨rfl, rfl, rfl, by decide⟩

/-- C6, amended: any falsy input — null, undefined, the empty string, 0,
false — yields "Prompt is required"; a truthy non-string yields "Prompt
must be a string"; a *non-empty* string whose sanitized form has length 0
yields "Prompt cannot be empty". -/
theorem validatePrompt_error_messages :
    (AIFlow.validatePrompt .vNull).errors = ["Prompt is required"] ∧
    (AIFlow.validatePrompt .vUndef).errors = ["Prompt is required"] ∧
    (AIFlow.validatePrompt (.vStr [])).errors = ["Prompt is required"] ∧
    (AIFlow.validatePrompt (.vNum 0)).errors = ["Prompt is required"] ∧
    (AIFlow.validatePrompt (.vBool false)).errors = ["Prompt is required"] ∧
    (∀ v, AIFlow.truthy v = true → AIFlow.isStringVal v = false →
      (AIFlow.validatePrompt v).errors = ["Prompt must be a string"]) ∧
    (∀ s : List Char, s ≠ [] → (AIFlow.sanitizeChars s).length = 0 →
      (AIFlow.validatePrompt (.vStr s)).errors = ["Prompt cannot be empty"]) := by
  refine ⟨by decide, by decide, by decide, by decide, by decide, ?_, ?_⟩
  · intro v htr hstr
    simp [validatePrompt, htr, hstr]
  · intro s hne hlen
    have htr : truthy (.vStr s) = true := by simp [truthy, hne]
    simp [validatePrompt, htr, isStringVal, sanitizeString, hlen]

/-- Witness for amended C6 at the whitespace-only prompt `" "`. -/
theorem validatePrompt_error_messages_witness :
    (AIFlow.validatePrompt (.vStr [' '])).errors = ["Prompt cannot be empty"] :=
  validatePrompt_error_messages.2.2.2.2.2.2 [' '] (by decide) (by decide)

/-- C10: `validatePrompt` reports at most one error and `isValid` holds
exactly when its error list is empty; `validateSaveData`'s error list is
the prompt errors (at most one) followed by the response errors (at most
one). -/
theorem validation_error_counts (p r : AIFlow.JSValue) :
    (AIFlow.validatePrompt p).errors.length ≤ 1 ∧
    ((AIFlow.validatePrompt p).isValid = true ↔
      (AIFlow.validatePrompt p).errors = []) ∧
    (AIFlow.validateSaveData p r).errors =
      (if (AIFlow.validatePrompt p).isValid then []
       else (AIFlow.validatePrompt p).errors) ++ AIFlow.responseErrors r ∧
    (AIFlow.responseErrors r).length ≤ 1 := by
  refine ⟨?_, ?_, rfl, ?_⟩
  · simp only [validatePrompt]
    repeat' split
    all_goals simp
  · simp only [validatePrompt]
    repeat' split
    all_goals simp
  · simp only [responseErrors]
    repeat' split
    all_goals simp

/-! ## Save-handler and completion-client error classification -/

/-- C2: an error reaching the `POST /api/save` catch block that is a
connection-type failure or carries the "Database save timeout" message of
the 10-second `Promise.race` timeout (and is not a Mongoose
`ValidationError`, which no connection or timeout failure is) is answered
with HTTP 503 and code `DATABASE_UNAVAILABLE`. -/
theorem saveHandler_unavailable_503 (e : AIFlow.JSError)
    (hname : e.name ≠ "ValidationError")
    (h : AIFlow.isConnectionTypeError e = true ∨
      AIFlow.strIncludes e.message "Database save timeout" = true) :
    AIFlow.classifySaveError e = (503, "DATABASE_UNAVAILABLE") := by
  have hconn : isConnectionTypeError e = true := by
    rcases h with h | h
    · exact h
    · simp [isConnectionTypeError, h]
  simp [classifySaveError, hname, hconn]

/-- Witness for C2: the concrete error thrown by the save timeout. -/
theorem saveHandler_unavailable_503_witness :
    AIFlow.classifySaveError ⟨"Error", "Database save timeout", none⟩ =
      (503, "DATABASE_UNAVAILABLE") :=
  saveHandler_unavailable_503 ⟨"Error", "Database save timeout", none⟩
    (by decide) (Or.inr (by decide))

/-- C3, counterexample: an HTTP 503 upstream response whose body carries no
`error.message` produces the failure message "HTTP 503: ..." which contains
none of the matched substrings, so `chatCompletion` re-throws it unchanged
instead of producing the service-unavailable classification — refuting
"every HTTP 5xx status becomes a service-unavailable error". -/
theorem http5xx_passthrough_counterexample :
    (500 ≤ 503 ∧ 503 < 600) ∧
    AIFlow.reclassifyCompletionError
        (AIFlow.makeRequestErrorMessage 503 none "upstream overloaded") =
      "HTTP 503: upstream overloaded" ∧
    "HTTP 503: upstream overloaded" ≠ "OpenRouter API service unavailable" := by
  refine ⟨by decide, ?_, by decide⟩
  decide

/-- C3, amended: `chatCompletion` classifies a failure by substring tests
on its message (which for a non-2xx response is the body's `error.message`
when present, else "HTTP <status>: <body>"): a message containing "401" →
invalid credential; else containing "429" → rate limit; else containing
"500" → service unavailable; else containing "ENOTFOUND" or "ECONNREFUSED"
→ unable to connect; anything else passes through unchanged.  A 5xx status
is therefore mapped to service-unavailable only when the message happens to
contain "500". -/
theorem completionError_classification (msg : String) :
    (AIFlow.strIncludes msg "401" = true →
      AIFlow.reclassifyCompletionError msg = "Invalid OpenRouter API key") ∧
    (AIFlow.strIncludes msg "401" = false →
      AIFlow.strIncludes msg "429" = true →
      AIFlow.reclassifyCompletionError msg =
        "Rate limit exceeded. Please try again later") ∧
    (AIFlow.strIncludes msg "401" = false →
      AIFlow.strIncludes msg "429" = false →
      AIFlow.strIncludes msg "500" = true →
      AIFlow.reclassifyCompletionError msg =
        "OpenRouter API service unavailable") ∧
    (AIFlow.strIncludes msg "401" = false →
      AIFlow.strIncludes msg "429" = false →
      AIFlow.strIncludes msg "500" = false →
      (AIFlow.strIncludes msg "ENOTFOUND" = true ∨
        AIFlow.strIncludes msg "ECONNREFUSED" = true) →
      AIFlow.reclassifyCompletionError msg =
        "Unable to connect to OpenRouter API") ∧
    (AIFlow.strIncludes msg "401" = false →
      AIFlow.strIncludes msg "429" = false →
      AIFlow.strIncludes msg "500" = false →
      AIFlow.strIncludes msg "ENOTFOUND" = false →
      AIFlow.strIncludes msg "ECONNREFUSED" = false →
      AIFlow.reclassifyCompletionError msg = msg) := by
  refine ⟨?_, ?_, ?_, ?_, ?_⟩
  · intro h1
    simp [reclassifyCompletionError, h1]
  · intro h1 h2
    simp [reclassifyCompletionError, h1, h2]
  · intro h1 h2 h3
    simp [reclassifyCompletionError, h1, h2, h3]
  · intro h1 h2 h3 h4
    rcases h4 with h4 | h4 <;>
      simp [reclassifyCompletionError, h1, h2, h3, h4]
  · intro h1 h2 h3 h4 h5
    simp [reclassifyCompletionError, h1, h2, h3, h4, h5]

/-- Witness for amended C3: a 401 message is classified as an invalid
credential. -/
theorem completionError_classification_witness :
    AIFlow.reclassifyCompletionError
        (AIFlow.makeRequestErrorMessage 401 none "unauthorized") =
      "Invalid OpenRouter API key" :=
  (completionError_classification
    (AIFlow.makeRequestErrorMessage 401 none "unauthorized")).1 (by decide)

/-- C7: `chatCompletion` throws locally — before any outbound request is
built — whenever the prompt is falsy, not a string, or whitespace-only
after trimming, or the selected model (`model || defaultModel`) is outside
the free-model allow-list. -/
theorem chatCompletion_local_rejection (prompt : AIFlow.JSValue)
    (model : Option String)
    (h : (AIFlow.truthy prompt = false ∨ AIFlow.isStringVal prompt = false ∨
        (AIFlow.jsTrim (AIFlow.strChars prompt)).length = 0) ∨
      AIFlow.selectedModel model ∉ AIFlow.freeModels) :
    ∃ e, AIFlow.chatCompletionRequest prompt model = .error e := by
  unfold chatCompletionRequest
  rcases h with h | h
  · refine ⟨"Prompt is required and must be a non-empty string", ?_⟩
    rcases h with h | h | h <;> simp [h]
  · by_cases hp : (!truthy prompt || !isStringVal prompt ||
        (jsTrim (strChars prompt)).length = 0 : Bool)
    · exact ⟨"Prompt is required and must be a non-empty string", by simp_all⟩
    · refine ⟨"Model " ++ selectedModel model ++
        " is not available. Available models: " ++
        String.intercalate ", " freeModels, ?_⟩
      have hm : freeModels.contains (selectedModel model) = false := by
        simpa using h
      simp_all

/-- Witness for C7: the empty prompt and an allow-listed-bypassing model
are both rejected locally. -/
theorem chatCompletion_local_rejection_witness :
    ∃ e, AIFlow.chatCompletionRequest (.vStr []) none = .error e :=
  chatCompletion_local_rejection (.vStr []) none (Or.inl (Or.inl (by decide)))

/-! ## Rate limiter lemmas -/

lemma filter_window_replicate (now : Int) (k : Nat) :
    (List.replicate k now).filter
      (fun timestamp => decide (now - WINDOW_SIZE < timestamp)) =
      List.replicate k now := by
  rw [List.filter_replicate, if_pos]
  simp only [decide_eq_true_eq, WINDOW_SIZE]
  omega

lemma rateLimitStep_replicate_lt (s : RLState) (ip : String) (now : Int)
    (k : Nat) (hs : s ip = List.replicate k now) (hk : k < 30) :
    rateLimitStep s ip now =
      (fun i => if i = ip then List.replicate (k + 1) now else s i,
       ⟨true, none⟩) := by
  simp only [rateLimitStep, hs, filter_window_replicate, List.length_replicate,
    MAX_REQUESTS]
  rw [if_neg (by omega), ← List.replicate_succ' k now]

lemma rateLimitStep_replicate_full (s : RLState) (ip : String) (now : Int)
    (hs : s ip = List.replicate 30 now) :
    rateLimitStep s ip now =
      (fun i => if i = ip then List.replicate 30 now else s i,
       ⟨false, some (ceilDiv1000 (now + WINDOW_SIZE - now))⟩) := by
  simp only [rateLimitStep, hs, filter_window_replicate, List.length_replicate,
    MAX_REQUESTS]
  rw [if_pos (by omega)]
  rfl

lemma runResults_replicate_eval (ip : String) (now : Int) :
    ∀ (n k : Nat) (s : RLState), s ip = List.replicate k now → k ≤ 30 →
      ∀ i, i < n →
      (runResultsList s (List.replicate n (ip, now)))[i]? =
        some (if k + i < 30 then ⟨true, none⟩
              else ⟨false, some (ceilDiv1000 (now + WINDOW_SIZE - now))⟩) := by
  intro n
  induction n with
  | zero => exact fun k s _ _ i hi => absurd hi (Nat.not_lt_zero i)
  | succ n ih =>
      intro k s hs hk i hi
      rw [List.replicate_succ]
      rw [show runResultsList s ((ip, now) :: List.replicate n (ip, now)) =
          (rateLimitStep s ip now).2 ::
            runResultsList (rateLimitStep s ip now).1
              (List.replicate n (ip, now)) from rfl]
      by_cases hk30 : k < 30
      · rw [rateLimitStep_replicate_lt s ip now k hs hk30]
        cases i with
        | zero =>
            rw [List.getElem?_cons_zero, if_pos (by omega)]
        | succ j =>
            rw [List.getElem?_cons_succ]
            have hs' : (fun i => if i = ip then List.replicate (k + 1) now
                else s i) ip = List.replicate (k + 1) now := by simp
            rw [ih (k + 1) _ hs' (by omega) j (by omega)]
            by_cases hj : k + 1 + j < 30
            · rw [if_pos hj, if_pos (by omega)]
            · rw [if_neg hj, if_neg (by omega)]
      · have hk' : k = 30 := by omega
        subst hk'
        rw [rateLimitStep_replicate_full s ip now hs]
        cases i with
        | zero =>
            rw [List.getElem?_cons_zero, if_neg (by omega)]
        | succ j =>
            rw [List.getElem?_cons_succ]
            have hs' : (fun i => if i = ip then List.replicate 30 now
                else s i) ip = List.replicate 30 now := by simp
            rw [ih 30 _ hs' (by omega) j (by omega),
              if_neg (by omega), if_neg (by omega)]

/-- C1: a fixed identity issuing `n` limiter calls at one instant: calls
1..30 (indices `i < 30`) are allowed, and every later call in the burst is
denied with `resetTime = Math.ceil((oldest_retained + WINDOW_SIZE - now) /
1000)` — the oldest retained timestamp being `now` itself — which is at
most 60 seconds. -/
theorem rateLimiter_burst (ip : String) (now : Int) (n i : Nat) (hi : i < n) :
    (AIFlow.runResultsList AIFlow.initState
        (List.replicate n (ip, now)))[i]? =
      some (if i < 30 then ⟨true, none⟩
            else ⟨false,
              some (AIFlow.ceilDiv1000 (now + AIFlow.WINDOW_SIZE - now))⟩) ∧
    AIFlow.ceilDiv1000 (now + AIFlow.WINDOW_SIZE - now) ≤ 60 := by
  constructor
  · have h := runResults_replicate_eval ip now n 0 initState rfl
      (by omega) i hi
    rwa [Nat.zero_add] at h
  · have hw : now + WINDOW_SIZE - now = 60000 := by
      simp only [WINDOW_SIZE]
      omega
    rw [hw]
    decide

/-- Witness for C1: the 31st call (index 30) of a burst of 31 is denied
with a 60-second reset. -/
theorem rateLimiter_burst_witness :
    (AIFlow.runResultsList AIFlow.initState
        (List.replicate 31 ("client", (0 : Int))))[30]? =
      some (if 30 < 30 then ⟨true, none⟩
            else ⟨false,
              some (AIFlow.ceilDiv1000 (0 + AIFlow.WINDOW_SIZE - 0))⟩) ∧
    AIFlow.ceilDiv1000 (0 + AIFlow.WINDOW_SIZE - 0) ≤ 60 :=
  rateLimiter_burst "client" 0 31 30 (by decide)

lemma runState_append (s : RLState) (xs : List (String × Int))
    (e : String × Int) :
    runState s (xs ++ [e]) = (rateLimitStep (runState s xs) e.1 e.2).1 := by
  induction xs generalizing s with
  | nil => rfl
  | cons x xs ih =>
      rw [List.cons_append]
      exact ih ((rateLimitStep s x.1 x.2).1)

lemma lastCall_append (ip : String) (xs : List (String × Int))
    (e : String × Int) :
    lastCall ip (xs ++ [e]) = if e.1 = ip then some e.2 else lastCall ip xs := by
  induction xs with
  | nil =>
      by_cases he : e.1 = ip <;> simp [lastCall, he]
  | cons x xs ih =>
      rw [List.cons_append]
      show (match lastCall ip (xs ++ [e]) with
            | some t => some t
            | none => if x.1 = ip then some x.2 else none) = _
      rw [ih]
      by_cases he : e.1 = ip
      · simp [he]
      · simp only [if_neg he]
        rfl

lemma lastCall_mem (ip : String) :
    ∀ (xs : List (String × Int)) (t : Int),
      lastCall ip xs = some t → (ip, t) ∈ xs := by
  intro xs
  induction xs with
  | nil => intro t h; cases h
  | cons x xs ih =>
      rcases x with ⟨x1, x2⟩
      intro t h
      have hcons : lastCall ip ((x1, x2) :: xs) =
          match lastCall ip xs with
          | some u => some u
          | none => if x1 = ip then some x2 else none := rfl
      rw [hcons] at h
      cases hl : lastCall ip xs with
      | some u =>
          rw [hl] at h
          cases h
          exact List.mem_cons_of_mem _ (ih t hl)
      | none =>
          rw [hl] at h
          by_cases hx : x1 = ip
          · subst hx
            rw [if_pos rfl] at h
            cases h
            exact List.mem_cons_self _ _
          · rw [if_neg hx] at h
            cases h

lemma rateLimitStep_other (s : RLState) (a ip : String) (now : Int)
    (h : ip ≠ a) :
    (rateLimitStep s a now).1 ip = s ip := by
  simp only [rateLimitStep]
  split <;> simp [h]

lemma rateLimitStep_spec (s : RLState) (ip : String) (now : Int) :
    (rateLimitStep s ip now).1 ip =
      (if 30 ≤ ((s ip).filter
            (fun ts => decide (now - WINDOW_SIZE < ts))).length then
        (s ip).filter (fun ts => decide (now - WINDOW_SIZE < ts))
       else
        (s ip).filter (fun ts => decide (now - WINDOW_SIZE < ts)) ++ [now]) := by
  simp only [rateLimitStep, MAX_REQUESTS]
  split <;> rename_i h <;> simp [h]

lemma rl_state_invariant :
    ∀ trace : List (String × Int), MonoTrace trace → ∀ ip : String,
      (lastCall ip trace = none → runState initState trace ip = []) ∧
      (∀ t, lastCall ip trace = some t →
        (runState initState trace ip).Pairwise (· ≤ ·) ∧
        (runState initState trace ip).length ≤ 30 ∧
        ∀ x ∈ runState initState trace ip,
          t - WINDOW_SIZE < x ∧ x ≤ t) := by
  intro trace
  induction trace using List.reverseRecOn with
  | nil =>
      intro _ ip
      exact ⟨fun _ => rfl, fun t ht => Option.noConfusion ht⟩
  | append_singleton xs e ih =>
      rcases e with ⟨a, b⟩
      intro hmono ip
      have hxsmono : MonoTrace xs := (List.pairwise_append.mp hmono).1
      have hbound : ∀ p ∈ xs, p.2 ≤ b :=
        fun p hp => (List.pairwise_append.mp hmono).2.2 p hp (a, b)
          (List.mem_singleton_self _)
      have hW : (0 : Int) < WINDOW_SIZE := by norm_num [WINDOW_SIZE]
      by_cases hip : a = ip
      · subst hip
        constructor
        · intro hnone
          rw [lastCall_append, if_pos rfl] at hnone
          cases hnone
        · intro t ht
          rw [lastCall_append, if_pos rfl] at ht
          have htb : t = b := by
            cases ht
            rfl
          subst htb
          -- the previous stored list is sorted, short, and bounded by t
          have hl₀ : (runState initState xs a).Pairwise (· ≤ ·) ∧
              (runState initState xs a).length ≤ 30 ∧
              ∀ x ∈ runState initState xs a, x ≤ t := by
            cases hcase : lastCall a xs with
            | none =>
                rw [(ih hxsmono a).1 hcase]
                exact ⟨List.Pairwise.nil, by simp, by simp⟩
            | some t₀ =>
                have h3 := (ih hxsmono a).2 t₀ hcase
                have ht₀ : t₀ ≤ t := hbound (a, t₀) (lastCall_mem a xs t₀ hcase)
                exact ⟨h3.1, h3.2.1,
                  fun x hx => le_trans (h3.2.2 x hx).2 ht₀⟩
          have hl₁sorted : ((runState initState xs a).filter
              (fun ts => decide (t - WINDOW_SIZE < ts))).Pairwise (· ≤ ·) :=
            hl₀.1.filter _
          have hl₁len : ((runState initState xs a).filter
              (fun ts => decide (t - WINDOW_SIZE < ts))).length ≤ 30 :=
            le_trans (List.length_filter_le _ _) hl₀.2.1
          have hl₁mem : ∀ x ∈ (runState initState xs a).filter
              (fun ts => decide (t - WINDOW_SIZE < ts)),
              t - WINDOW_SIZE < x ∧ x ≤ t := by
            intro x hx
            rcases List.mem_filter.mp hx with ⟨hx0, hx1⟩
            exact ⟨by simpa using hx1, hl₀.2.2 x hx0⟩
          rw [runState_append, rateLimitStep_spec]
          by_cases hfull : 30 ≤ ((runState initState xs a).filter
              (fun ts => decide (t - WINDOW_SIZE < ts))).length
          · rw [if_pos hfull]
            exact ⟨hl₁sorted, hl₁len, hl₁mem⟩
          · rw [if_neg hfull]
            refine ⟨?_, ?_, ?_⟩
            · rw [List.pairwise_append]
              exact ⟨hl₁sorted, by simp,
                fun x hx y hy => by
                  rw [List.mem_singleton] at hy
                  subst hy
                  exact (hl₁mem x hx).2⟩
            · rw [List.length_append]
              simp only [List.length_singleton]
              omega
            · intro x hx
              rcases List.mem_append.mp hx with hx | hx
              · exact hl₁mem x hx
              · rw [List.mem_singleton] at hx
                subst hx
                exact ⟨by omega, le_refl x⟩
      · constructor
        · intro hnone
          rw [lastCall_append, if_neg hip] at hnone
          rw [runState_append, rateLimitStep_other _ _ _ _ (Ne.symm hip)]
          exact (ih hxsmono ip).1 hnone
        · intro t ht
          rw [lastCall_append, if_neg hip] at ht
          rw [runState_append, rateLimitStep_other _ _ _ _ (Ne.symm hip)]
          exact (ih hxsmono ip).2 t ht

/-- C9: after any sequence of limiter calls with a nondecreasing clock,
each identity's stored timestamp list is sorted nondecreasingly, has at
most 30 entries, and contains only timestamps strictly greater than (that
identity's most recent call time − 60000 ms). -/
theorem rateLimiter_state_invariant (trace : List (String × Int))
    (ip : String) (t : Int) (hmono : AIFlow.MonoTrace trace)
    (hlast : AIFlow.lastCall ip trace = some t) :
    (AIFlow.runState AIFlow.initState trace ip).Pairwise (· ≤ ·) ∧
    (AIFlow.runState AIFlow.initState trace ip).length ≤ 30 ∧
    ∀ x ∈ AIFlow.runState AIFlow.initState trace ip,
      t - AIFlow.WINDOW_SIZE < x := by
  have h := (rl_state_invariant trace hmono ip).2 t hlast
  exact ⟨h.1, h.2.1, fun x hx => (h.2.2 x hx).1⟩

/-- Witness for C9 at the one-call trace `[("a", 5)]`. -/
theorem rateLimiter_state_invariant_witness :
    AIFlow.MonoTrace [("a", (5 : Int))] ∧
    AIFlow.lastCall "a" [("a", (5 : Int))] = some 5 ∧
    ((AIFlow.runState AIFlow.initState [("a", (5 : Int))] "a").Pairwise (· ≤ ·) ∧
     (AIFlow.runState AIFlow.initState [("a", (5 : Int))] "a").length ≤ 30 ∧
     ∀ x ∈ AIFlow.runState AIFlow.initState [("a", (5 : Int))] "a",
       5 - AIFlow.WINDOW_SIZE < x) := by
  have hm : MonoTrace [("a", (5 : Int))] := by simp [MonoTrace]
  have hl : lastCall "a" [("a", (5 : Int))] = some 5 := rfl
  exact ⟨hm, hl, rateLimiter_state_invariant _ _ _ hm hl⟩

end AIFlow
